import Mathlib

/-!
Verification of the `ing` SDE-calibration core: a shallow embedding of
`ing/fit/models.py`, `ing/fit/cir.py`, `ing/optm/minimizer.py` and
`ing/utils/data_utils.py`, together with theorems settling the claims of
the natural-language specification.

Real-valued numerics are embedded over `ℝ`; the external scaled Bessel
routine `scipy.special.ive` is kept abstract as a function parameter, and
the external `scipy.optimize.minimize` routine as a function parameter
returning an `OptimizeResult`-like record.  Fallible operations (Python
exceptions) are embedded with `Except`.
-/

namespace Ing

/-- Python exceptions that the embedded code can raise. -/
inductive PyError where
  | notImplementedError
  | valueError (msg : String)
  | zeroDivisionError
deriving DecidableEq, Repr

/-- State of the abstract base class `Model` (`ing/fit/models.py`): the
capability flag, the optional parameter vector, the positivity flag and
the default simulation method, exactly the four attributes assigned in
`Model.__init__`. -/
structure ModelState where
  has_exact_density : Bool
  params : Option (List ℝ)
  positive : Bool
  default_sim_method : String

/-- `Model.__init__(has_exact_density, default_sim_method)`: stores the
flag, sets `_params = None` and `_positive = False`. -/
def Model.init (has_exact_density : Bool) (default_sim_method : String) : ModelState :=
  ⟨has_exact_density, none, false, default_sim_method⟩

/-- The `params` property setter: recomputes the positivity flag with the
model-specific predicate `_set_is_positive` applied to the new vector,
then stores the vector.  The predicate is a parameter of the embedding,
so one definition covers every concrete model. -/
def Model.set_params (set_is_positive : List ℝ → Bool) (m : ModelState)
    (vals : List ℝ) : ModelState :=
  { m with positive := set_is_positive vals, params := some vals }

/-- The `is_positive` property getter: returns the stored flag. -/
def Model.is_positive (m : ModelState) : Bool :=
  m.positive

/-- The base-class `_set_is_positive`: always `False` when not
overridden. -/
def Model.set_is_positive_default (params : List ℝ) : Bool :=
  false

/-- Base-class `Model.exact_density`: raises `NotImplementedError`
unconditionally; the state is returned unchanged to make the absence of
mutation explicit. -/
def Model.exact_density (m : ModelState) (x0 xt t0 dt : ℝ) :
    Except PyError ℝ × ModelState :=
  (.error .notImplementedError, m)

/-- Base-class `Model.exact_step`: raises `NotImplementedError`
unconditionally; the state is returned unchanged. -/
def Model.exact_step (m : ModelState) (t dt x dZ : ℝ) :
    Except PyError ℝ × ModelState :=
  (.error .notImplementedError, m)

/-- Base-class numerical derivative `Model.drift_x`, parameterized by the
concrete `drift` function. -/
noncomputable def Model.drift_x (drift : ℝ → ℝ → ℝ) (x t : ℝ) : ℝ :=
  let h : ℝ := 1e-05
  (drift (x + h) t - drift (x - h) t) / (2 * h)

/-- Base-class numerical derivative `Model.drift_t`. -/
noncomputable def Model.drift_t (drift : ℝ → ℝ → ℝ) (x t : ℝ) : ℝ :=
  let h : ℝ := 1e-05
  (drift x (t + h) - drift x t) / h

/-- Base-class numerical derivative `Model.drift_xx`. -/
noncomputable def Model.drift_xx (drift : ℝ → ℝ → ℝ) (x t : ℝ) : ℝ :=
  let h : ℝ := 1e-05
  (drift (x + h) t - 2 * drift x t + drift (x - h) t) / (h * h)

/-- Base-class numerical derivative `Model.diffusion_x`. -/
noncomputable def Model.diffusion_x (diffusion : ℝ → ℝ → ℝ) (x t : ℝ) : ℝ :=
  let h : ℝ := 1e-05
  (diffusion (x + h) t - diffusion (x - h) t) / (2 * h)

/-- Base-class numerical derivative `Model.diffusion_xx`. -/
noncomputable def Model.diffusion_xx (diffusion : ℝ → ℝ → ℝ) (x t : ℝ) : ℝ :=
  let h : ℝ := 1e-05
  (diffusion (x + h) t - 2 * diffusion x t + diffusion (x - h) t) / (h * h)

/-- `CIR.__init__`: `super().__init__(has_exact_density=True)`, so the
density flag is true, `_params = None`, `_positive = False`, and the
default simulation method keeps the base default `"Milstein"`. -/
def CIR.init : ModelState :=
  Model.init true "Milstein"

/-- `CIR._set_is_positive`: returns `True` for every parameter vector. -/
def CIR.set_is_positive (params : List ℝ) : Bool :=
  true

/-- `CIR.drift(x, t) = kappa * (mu - x)` with `params = [kappa, mu, sigma]`. -/
noncomputable def CIR.drift (kappa mu sigma : ℝ) (x t : ℝ) : ℝ :=
  kappa * (mu - x)

/-- `CIR.diffusion(x, t) = sigma * sqrt(x)`. -/
noncomputable def CIR.diffusion (kappa mu sigma : ℝ) (x t : ℝ) : ℝ :=
  sigma * Real.sqrt x

/-- `CIR.drift_t` override: exact zero. -/
def CIR.drift_t (x t : ℝ) : ℝ :=
  0

/-- `CIR.exact_step` is not overridden: it is the inherited base-class
method. -/
def CIR.exact_step (m : ModelState) (t dt x dZ : ℝ) :
    Except PyError ℝ × ModelState :=
  Model.exact_step m t dt x dZ

/-- Shallow embedding of `CIR.exact_density` (`ing/fit/cir.py`), line by
line: `theta1 = kappa*mu`, `theta2 = kappa`, `theta3 = sigma`,
`et = exp(-theta2*dt)`, `c = 2*theta2/(theta3**2*(1-et))`,
`u = c*x0*et`, `v = c*xt`, `q = 2*theta1/theta3**2 - 1`,
`z = 2*sqrt(u*v)`, `p = c*exp(-(u+v)+abs(z))*(v/u)**(q/2)`, then `z` is
recomputed by the same expression and `p *= ive(q, z)`.  The scaled
Bessel routine `scipy.special.ive` is the abstract parameter `ive`. -/
noncomputable def CIR.exact_density (ive : ℝ → ℝ → ℝ) (kappa mu sigma : ℝ)
    (x0 xt t0 dt : ℝ) : ℝ :=
  let theta1 := kappa * mu
  let theta2 := kappa
  let theta3 := sigma
  let et := Real.exp (-theta2 * dt)
  let c := 2 * theta2 / (theta3 ^ 2 * (1 - et))
  let u := c * x0 * et
  let v := c * xt
  let q := 2 * theta1 / theta3 ^ 2 - 1
  let z := 2 * Real.sqrt (u * v)
  let p := c * Real.exp (-(u + v) + |z|) * (v / u) ^ (q / 2)
  let z2 := 2 * Real.sqrt (u * v)
  p * ive q z2

/-- The density formula exactly as the specification states it:
`et = exp(-kappa*dt)`, `c = 2*kappa/(sigma^2*(1-et))`, `u = c*x0*et`,
`v = c*xt`, `q = 2*kappa*mu/sigma^2 - 1`, `z = 2*sqrt(u*v)`, and
`density = c * exp(-(u+v) + |z|) * (v/u)^(q/2) * ive(q, z)`. -/
noncomputable def specCIRDensity (ive : ℝ → ℝ → ℝ) (kappa mu sigma : ℝ)
    (x0 xt t0 dt : ℝ) : ℝ :=
  let et := Real.exp (-kappa * dt)
  let c := 2 * kappa / (sigma ^ 2 * (1 - et))
  let u := c * x0 * et
  let v := c * xt
  let q := 2 * kappa * mu / sigma ^ 2 - 1
  let z := 2 * Real.sqrt (u * v)
  c * Real.exp (-(u + v) + |z|) * (v / u) ^ (q / 2) * ive q z

/-- Result record of an optimization (`ing/optm/minimizer.py`): optimal
parameters, optimal objective value, success flag and status message. -/
structure Result where
  params : List ℝ
  value : ℝ
  success : Bool
  message : String

/-- The record returned by the external routine
`scipy.optimize.minimize`: the fields `x`, `fun`, `success`, `message`
that `ScipyMinimizer.minimize` reads (`fun` is a Lean keyword, hence
`fvalue`). -/
structure OptimizeResult where
  x : List ℝ
  fvalue : ℝ
  success : Bool
  message : String

/-- State of a `ScipyMinimizer`: method name, function tolerance and
free-form options mapping (embedded as a key-value list). -/
structure ScipyMinimizer where
  method : String
  tol : ℝ
  options : List (String × ℝ)

/-- The default options dictionary written in
`ScipyMinimizer.__init__`. -/
noncomputable def scipyDefaultOptions : List (String × ℝ) :=
  [("maxiter", 500), ("gtol", 1e-06), ("xtol", 1e-04), ("verbose", 1)]

/-- `ScipyMinimizer.__init__(method, tol, options)`: stores method and
tol, and stores `options or {default dict}` — Python `or` falls back to
the default both when `options` is `None` and when it is an empty
(falsy) dict. -/
noncomputable def ScipyMinimizer.init (method : String) (tol : ℝ)
    (options : Option (List (String × ℝ))) : ScipyMinimizer :=
  ⟨method, tol,
    match options with
    | none => scipyDefaultOptions
    | some o => if o.isEmpty then scipyDefaultOptions else o⟩

/-- The signature of the external `scipy.optimize.minimize` call as made
by `ScipyMinimizer.minimize`: objective, initial guess, tol, method,
bounds, options. -/
def ScipyRoutine : Type :=
  (List ℝ → ℝ) → Option (List ℝ) → ℝ → String → Option (List (ℝ × ℝ)) →
    List (String × ℝ) → OptimizeResult

/-- `ScipyMinimizer.minimize(function, bounds, guess)`: calls the
external routine (the abstract parameter `scipy`) with the stored tol,
method and options, then wraps the four fields of the returned record
into a `Result`. -/
def ScipyMinimizer.minimize (scipy : ScipyRoutine) (m : ScipyMinimizer)
    (function : List ℝ → ℝ) (bounds : Option (List (ℝ × ℝ)))
    (guess : Option (List ℝ)) : Result :=
  let res := scipy function guess m.tol m.method bounds m.options
  ⟨res.x, res.fvalue, res.success, res.message⟩

/-- `mean_squared_error(x_1, x_2)` (`ing/utils/data_utils.py`): raises
`ValueError` when the lengths differ, otherwise computes
`sum((x_1[i] - x_2[i])**2 for i in range(n)) / n`; for `n = 0` the
division `0 / 0` raises `ZeroDivisionError` in Python, embedded as an
explicit error branch.  Values are embedded as rationals. -/
def mean_squared_error (x_1 x_2 : List ℚ) : Except PyError ℚ :=
  if x_1.length ≠ x_2.length then
    .error (.valueError "Input arrays must have the same length.")
  else
    let n := x_1.length
    let s := ((List.range n).map (fun i => (x_1.getD i 0 - x_2.getD i 0) ^ 2)).sum
    if n = 0 then .error .zeroDivisionError else .ok (s / n)

/-- `np.argmax` on a boolean vector: raises
`ValueError("attempt to get argmax of an empty sequence")` on an empty
input; otherwise returns the index of the first `true`, and `0` when
every entry is `false` (the index of the first occurrence of the
maximum value). -/
def np_argmax_bool (l : List Bool) : Except PyError ℕ :=
  if l.isEmpty then
    .error (.valueError "attempt to get argmax of an empty sequence")
  else
    match l.findIdx? (fun b => b) with
    | some i => .ok i
    | none => .ok 0

/-- `np.mean` on a boolean vector: fraction of `true` entries. -/
def np_mean_bool (l : List Bool) : ℚ :=
  (l.count true : ℚ) / l.length

/-- `conditional_expectation(data, model, starting_point, target_level, T)`:
`simulated_spread = model[:T]` and the returned value is
`np.mean(simulated_spread >= target_level)`. -/
def conditional_expectation (data model : List ℚ)
    (starting_point target_level : ℚ) (T : ℕ) : ℚ :=
  let simulated_spread := model.take T
  np_mean_bool (simulated_spread.map (fun v => decide (target_level ≤ v)))

/-- `expected_time_to_target(data, model, starting_point, target_level,
max_periods)`: returns `np.argmax(model >= target_level)`, propagating
the `ValueError` that `np.argmax` raises on an empty sequence; note that
`max_periods`, `data` and `starting_point` do not appear in the body. -/
def expected_time_to_target (data model : List ℚ)
    (starting_point target_level : ℚ) (max_periods : ℕ) : Except PyError ℕ :=
  np_argmax_bool (model.map (fun v => decide (target_level ≤ v)))

/-- C3: for every model using the base-class implementations and every
`x`, `t`, the numerical derivatives are computed with step `h = 1e-5` as
`drift_x = (drift(x+h,t) - drift(x-h,t))/(2h)`,
`drift_t = (drift(x,t+h) - drift(x,t))/h`,
`drift_xx = (drift(x+h,t) - 2*drift(x,t) + drift(x-h,t))/h^2`, and
`diffusion_x`, `diffusion_xx` mirror the spatial drift formulas with
`diffusion` substituted. -/
theorem numerical_derivatives_formulas (drift diffusion : ℝ → ℝ → ℝ) (x t : ℝ) :
    Model.drift_x drift x t
        = (drift (x + 1e-05) t - drift (x - 1e-05) t) / (2 * 1e-05) ∧
      Model.drift_t drift x t
        = (drift x (t + 1e-05) - drift x t) / 1e-05 ∧
      Model.drift_xx drift x t
        = (drift (x + 1e-05) t - 2 * drift x t + drift (x - 1e-05) t)
            / (1e-05 * 1e-05) ∧
      Model.diffusion_x diffusion x t
        = (diffusion (x + 1e-05) t - diffusion (x - 1e-05) t) / (2 * 1e-05) ∧
      Model.diffusion_xx diffusion x t
        = (diffusion (x + 1e-05) t - 2 * diffusion x t + diffusion (x - 1e-05) t)
            / (1e-05 * 1e-05) :=
  ⟨rfl, rfl, rfl, rfl, rfl⟩

/-- C1: for every parameter vector `[kappa, mu, sigma]` and inputs `x0`,
`xt`, `t0`, `dt`, `CIR.exact_density` computes exactly the reparametrized
noncentral-chi-square formula `c * exp(-(u+v) + |z|) * (v/u)^(q/2) *
ive(q, z)` with `et = exp(-kappa*dt)`, `c = 2*kappa/(sigma^2*(1-et))`,
`u = c*x0*et`, `v = c*xt`, `q = 2*kappa*mu/sigma^2 - 1`,
`z = 2*sqrt(u*v)`, where `ive` is the exponentially-scaled Bessel
routine — the only exponential computed is the rescaled one already
containing the `+|z|` compensation. -/
theorem cir_exact_density_matches_spec_formula (ive : ℝ → ℝ → ℝ)
    (kappa mu sigma x0 xt t0 dt : ℝ) :
    CIR.exact_density ive kappa mu sigma x0 xt t0 dt
      = specCIRDensity ive kappa mu sigma x0 xt t0 dt := by
  simp only [CIR.exact_density, specCIRDensity]
  rw [← mul_assoc 2 kappa mu]

/-- C2: for CIR parameters with `kappa > 0` and `sigma > 0` and inputs
`x0 > 0`, `xt > 0`, `dt > 0`, the exact density is a well-defined,
non-negative real number (the intermediate quantities `c`, `u`, `v` are
strictly positive, so no division by zero and no negative power base
occurs), granted that the external scaled Bessel routine is
non-negative. -/
theorem cir_exact_density_nonneg (ive : ℝ → ℝ → ℝ)
    (hive : ∀ a b, 0 ≤ ive a b) (kappa mu sigma x0 xt t0 dt : ℝ)
    (hkappa : 0 < kappa) (hsigma : 0 < sigma) (hx0 : 0 < x0) (hxt : 0 < xt)
    (hdt : 0 < dt) :
    0 ≤ CIR.exact_density ive kappa mu sigma x0 xt t0 dt := by
  simp only [CIR.exact_density]
  have het : Real.exp (-kappa * dt) < 1 := by
    rw [Real.exp_lt_one_iff]
    nlinarith
  have hc : 0 < 2 * kappa / (sigma ^ 2 * (1 - Real.exp (-kappa * dt))) :=
    div_pos (by linarith) (mul_pos (pow_pos hsigma 2) (by linarith))
  have hu : 0 < 2 * kappa / (sigma ^ 2 * (1 - Real.exp (-kappa * dt))) * x0
      * Real.exp (-kappa * dt) :=
    mul_pos (mul_pos hc hx0) (Real.exp_pos _)
  have hv : 0 < 2 * kappa / (sigma ^ 2 * (1 - Real.exp (-kappa * dt))) * xt :=
    mul_pos hc hxt
  apply mul_nonneg _ (hive _ _)
  apply le_of_lt
  apply mul_pos (mul_pos hc (Real.exp_pos _))
  exact Real.rpow_pos_of_pos (div_pos hv hu) _

/-- Witness for C2 at the parameter magnitudes named by the claim:
`kappa = 5`, `sigma = 1/10`, `x0 = 1/100`, `xt = 1/20`, `dt = 1/100`
(with `mu = 1/2`, `t0 = 0`), and a concrete non-negative stand-in for
the scaled Bessel routine. -/
theorem cir_exact_density_nonneg_witness :
    0 ≤ CIR.exact_density (fun a b => 1) 5 (1 / 2) (1 / 10) (1 / 100)
        (1 / 20) 0 (1 / 100) :=
  cir_exact_density_nonneg (fun a b => 1) (fun a b => zero_le_one) 5 (1 / 2)
    (1 / 10) (1 / 100) (1 / 20) 0 (1 / 100) (by norm_num) (by norm_num)
    (by norm_num) (by norm_num) (by norm_num)

/-- C6: on a model whose density flag is false (the base-class
implementation, not overridden), `exact_density` always fails with
`NotImplementedError`; `exact_step`, which neither the base class nor
CIR overrides, always fails with `NotImplementedError` on any model
state; and each call returns the model state unchanged. -/
theorem optional_capabilities_raise_not_implemented (m mc : ModelState)
    (hflag : m.has_exact_density = false) (x0 xt t0 dt t dt2 x dZ : ℝ) :
    Model.exact_density m x0 xt t0 dt = (.error .notImplementedError, m) ∧
      Model.exact_step mc t dt2 x dZ = (.error .notImplementedError, mc) ∧
      CIR.exact_step mc t dt2 x dZ = (.error .notImplementedError, mc) :=
  ⟨rfl, rfl, rfl⟩

/-- Witness for C6: a default-constructed base model (density flag
false) and a CIR instance, at concrete arguments. -/
theorem optional_capabilities_raise_not_implemented_witness :
    Model.exact_density (Model.init false "Milstein") 0 0 0 0
        = (.error .notImplementedError, Model.init false "Milstein") ∧
      Model.exact_step CIR.init 1 2 3 4
        = (.error .notImplementedError, CIR.init) ∧
      CIR.exact_step CIR.init 1 2 3 4
        = (.error .notImplementedError, CIR.init) :=
  optional_capabilities_raise_not_implemented (Model.init false "Milstein")
    CIR.init rfl 0 0 0 0 1 2 3 4

/-- C7: a `ScipyMinimizer` constructed without explicit options stores
exactly the option defaults `maxiter = 500`, `gtol = 1e-6`,
`xtol = 1e-4`, `verbose = 1`; and every `minimize` call returns a
`Result` whose `success`, `message`, `params` and `value` are exactly
the `success`, `message`, `x` and `fun` fields of the record produced
by the underlying routine, hence populated from the best-found point
even when `success` is false. -/
theorem scipy_minimizer_defaults_and_result_fields (scipy : ScipyRoutine)
    (m : ScipyMinimizer) (f : List ℝ → ℝ) (bounds : Option (List (ℝ × ℝ)))
    (guess : Option (List ℝ)) :
    (ScipyMinimizer.init "trust-constr" 5e-03 none).options
        = [("maxiter", 500), ("gtol", 1e-06), ("xtol", 1e-04), ("verbose", 1)] ∧
      (ScipyMinimizer.minimize scipy m f bounds guess).success
        = (scipy f guess m.tol m.method bounds m.options).success ∧
      (ScipyMinimizer.minimize scipy m f bounds guess).message
        = (scipy f guess m.tol m.method bounds m.options).message ∧
      (ScipyMinimizer.minimize scipy m f bounds guess).params
        = (scipy f guess m.tol m.method bounds m.options).x ∧
      (ScipyMinimizer.minimize scipy m f bounds guess).value
        = (scipy f guess m.tol m.method bounds m.options).fvalue :=
  ⟨rfl, rfl, rfl, rfl, rfl⟩

/-- C4: assigning the `params` property invokes the positivity predicate
on the new vector and stores the result, so right after the assignment
`is_positive` equals the predicate applied to the new vector; after a
replacement the flag reflects the new vector only, never the old one,
whatever flag value the state held before. -/
theorem params_setter_recomputes_positivity (P : List ℝ → Bool)
    (m : ModelState) (v w : List ℝ) :
    Model.is_positive (Model.set_params P m v) = P v ∧
      (Model.set_params P m v).params = some v ∧
      Model.is_positive (Model.set_params P (Model.set_params P m v) w) = P w :=
  ⟨rfl, rfl, rfl⟩

/-- C5 counterexample: a freshly constructed `CIR` instance (on which
`params` has never been assigned) reads `is_positive = false`, refuting
that every CIR instance reads `is_positive = true`. -/
theorem cir_fresh_instance_not_positive :
    Model.is_positive CIR.init = false :=
  rfl

/-- C5 amended: after any assignment to `params` — with any parameter
vector, including the degenerate `kappa = 0` — a CIR instance reads
`is_positive = true`; only a freshly constructed instance, before the
first assignment, reads `false`. -/
theorem cir_is_positive_after_set_params (m : ModelState) (v : List ℝ) :
    Model.is_positive (Model.set_params CIR.set_is_positive m v) = true :=
  rfl

/-- C10: the result of `conditional_expectation` depends only on `model`,
`target_level` and `T`: two calls with the same `model`, `target_level`,
`T` but arbitrary different `data` and `starting_point` return the same
value. -/
theorem conditional_expectation_ignores_data_and_start
    (data1 data2 model : List ℚ) (sp1 sp2 target_level : ℚ) (T : ℕ) :
    conditional_expectation data1 model sp1 target_level T
      = conditional_expectation data2 model sp2 target_level T :=
  rfl

/-- Helper: `getD` at an in-range index is the indexed element. -/
theorem getD_eq_get_of_lt {α : Type} (l : List α) (d : α) (i : ℕ)
    (h : i < l.length) : l.getD i d = l[i] := by
  rw [List.getD_eq_getElem?_getD, List.getElem?_eq_getElem h, Option.getD_some]

/-- Helper: the index-driven Python generator sum of squared differences
equals the sum over the zipped lists when the lengths agree. -/
theorem sum_range_getD_sq (x : List ℚ) : ∀ y : List ℚ, x.length = y.length →
    ((List.range x.length).map (fun i => (x.getD i 0 - y.getD i 0) ^ 2)).sum
      = (List.zipWith (fun a b => (a - b) ^ 2) x y).sum := by
  induction x with
  | nil => intro y h; simp
  | cons a xs ih =>
    intro y h
    cases y with
    | nil => simp at h
    | cons b ys =>
      have h2 : xs.length = ys.length := by simpa using h
      simp only [List.length_cons, List.range_succ_eq_map, List.map_cons,
        List.map_map, List.sum_cons, List.zipWith_cons_cons,
        List.getD_cons_zero, Function.comp_def, Nat.succ_eq_add_one,
        List.getD_cons_succ]
      rw [ih ys h2]

/-- C8 counterexample: the pair `([], [])` has equal lengths, yet
`mean_squared_error` raises `ZeroDivisionError` (Python divides the
empty sum by `n = 0`) instead of returning a mean. -/
theorem mean_squared_error_empty_raises :
    mean_squared_error [] [] = .error .zeroDivisionError :=
  rfl

/-- C8 amended: for every pair of equal-length nonempty sequences,
`mean_squared_error` returns the mean of the element-wise squared
differences, and for sequences of different lengths it raises a
`ValueError` (the ShapeMismatch of the spec taxonomy); on the
equal-length empty pair it instead raises `ZeroDivisionError`. -/
theorem mean_squared_error_spec (x_1 x_2 : List ℚ) :
    (x_1.length ≠ x_2.length →
        mean_squared_error x_1 x_2
          = .error (.valueError "Input arrays must have the same length.")) ∧
      (x_1.length = x_2.length → x_1 ≠ [] →
        mean_squared_error x_1 x_2
          = .ok ((List.zipWith (fun a b => (a - b) ^ 2) x_1 x_2).sum
              / x_1.length)) := by
  constructor
  · intro h
    simp [mean_squared_error, h]
  · intro h hne
    have hn : ¬x_1.length = 0 := fun h0 => hne (List.length_eq_zero.mp h0)
    have hcond : ¬x_1.length ≠ x_2.length := fun hc => hc h
    simp only [mean_squared_error]
    rw [if_neg hcond, if_neg hn, sum_range_getD_sq x_1 x_2 h]

/-- Witness for C8 on the pair named by the spec: `[1,2,3]` against
`[1,2,4]` gives `(0 + 0 + 1)/3 = 1/3`. -/
theorem mean_squared_error_spec_witness :
    mean_squared_error [1, 2, 3] [1, 2, 4] = .ok (1 / 3) := by
  have h := (mean_squared_error_spec [1, 2, 3] [1, 2, 4]).2 rfl
    (List.cons_ne_nil 1 [2, 3])
  rw [h]
  norm_num [List.zipWith_cons_cons, List.zipWith_nil_left, List.sum_cons,
    List.sum_nil]

/-- C9 counterexample: on the empty model sequence no value reaches the
target, yet `expected_time_to_target` raises
`ValueError("attempt to get argmax of an empty sequence")` — the error
`np.argmax` produces on an empty input — instead of returning the
sentinel `0`. -/
theorem expected_time_to_target_empty_raises :
    expected_time_to_target [] [] 0 0 10
      = .error (.valueError "attempt to get argmax of an empty sequence") :=
  rfl

/-- C9 amended: for every nonempty model sequence, target level and
horizon, `expected_time_to_target` returns the index of the first model
value at or above the target when one exists anywhere in the sequence
(the body ignores `max_periods`, so the search range is the whole
sequence), and returns the sentinel `0` when no value reaches the
target — indistinguishable from a hit at period 0; on an empty model
sequence it raises `ValueError` instead of returning. -/
theorem expected_time_to_target_spec (data model : List ℚ) (sp target : ℚ)
    (mp : ℕ) :
    ((∃ i, i < model.length ∧ target ≤ model.getD i 0) →
        ∃ k, expected_time_to_target data model sp target mp = .ok k ∧
          k < model.length ∧ target ≤ model.getD k 0 ∧
          ∀ j, j < k → model.getD j 0 < target) ∧
      (model ≠ [] → (∀ i, i < model.length → model.getD i 0 < target) →
        expected_time_to_target data model sp target mp = .ok 0) := by
  constructor
  · rintro ⟨i, hi, hti⟩
    have hemp : (model.map (fun v => decide (target ≤ v))).isEmpty = false := by
      cases model with
      | nil => exact absurd hi (by simp)
      | cons a l => rfl
    have hex : ∃ x, x ∈ model.map (fun v => decide (target ≤ v)) ∧
        (fun b => b) x = true := by
      refine ⟨true, ?_, rfl⟩
      rw [List.mem_map]
      exact ⟨model[i], List.getElem_mem hi,
        by rw [decide_eq_true_iff]; rw [getD_eq_get_of_lt model 0 i hi] at hti; exact hti⟩
    obtain ⟨k, hk⟩ :
        ∃ k, (model.map (fun v => decide (target ≤ v))).findIdx? (fun b => b)
          = some k := by
      rcases List.findIdx?_eq_some_of_exists hex with h
      exact ⟨_, h⟩
    obtain ⟨hklt, hpk, hjlt⟩ := List.findIdx?_eq_some_iff_getElem.mp hk
    have hklen : k < model.length := by simpa using hklt
    refine ⟨k, ?_, hklen, ?_, ?_⟩
    · simp [expected_time_to_target, np_argmax_bool, hemp, hk]
    · rw [getD_eq_get_of_lt model 0 k hklen]
      have h2 := hpk
      simp only [List.getElem_map, decide_eq_true_iff] at h2
      exact h2
    · intro j hj
      have hjlen : j < model.length := Nat.lt_trans hj hklen
      have h3 := hjlt j hj
      simp only [List.getElem_map, decide_eq_true_iff] at h3
      rw [getD_eq_get_of_lt model 0 j hjlen]
      exact lt_of_not_le h3
  · intro hne hall
    have hemp : (model.map (fun v => decide (target ≤ v))).isEmpty = false := by
      cases model with
      | nil => exact absurd rfl hne
      | cons a l => rfl
    have hnone : (model.map (fun v => decide (target ≤ v))).findIdx? (fun b => b)
        = none := by
      rw [List.findIdx?_eq_none_iff]
      intro x hx
      rw [List.mem_map] at hx
      obtain ⟨a, ha, rfl⟩ := hx
      obtain ⟨n, hn, rfl⟩ := List.mem_iff_getElem.mp ha
      have := hall n hn
      rw [getD_eq_get_of_lt model 0 n hn] at this
      simpa using not_le_of_lt this
    simp [expected_time_to_target, np_argmax_bool, hemp, hnone]

/-- Witness for C9: in the model sequence `[1, 5, 2]` with target `3`,
the first value at or above the target sits at index 1, and the function
returns it (as an `ok` value, not an error). -/
theorem expected_time_to_target_spec_witness :
    ∃ k, expected_time_to_target [0, 0, 0] [1, 5, 2] 0 3 10 = .ok k ∧
      k < List.length [(1 : ℚ), 5, 2] ∧
      (3 : ℚ) ≤ List.getD [1, 5, 2] k 0 ∧
      ∀ j, j < k → List.getD [(1 : ℚ), 5, 2] j 0 < 3 :=
  (expected_time_to_target_spec [0, 0, 0] [1, 5, 2] 0 3 10).1
    ⟨1, by decide, by decide⟩

end Ing
